import Mathlib

/-!
Verification of the fashion-app-api backend (Python sources `auth.py`,
`routes/auth.py`, `categories.py`) against its natural-language
specification.  The Python functions are shallowly embedded: dictionaries
become association lists over a `Value` type with Python truthiness,
exceptions become `Except`, and each remote call (identity service, data
store) is modelled by an `Outcome` parameter describing what the remote
end would do; the list of calls actually issued is returned alongside the
result so that effect claims ("no store write is performed") can be stated.
-/

namespace FashionApp

/-- A Python value as it appears in the JSON-ish profile dictionaries. -/
inductive Value where
  | null
  | str (s : String)
  | int (n : Int)
  | bool (b : Bool)
  | vlist (xs : List String)
deriving DecidableEq, Repr

/-- A Python dict: association list from field name to value. -/
abbrev Dict := List (String × Value)

/-- Python truthiness of a `Value` (`bool(v)`). -/
def Value.truthy : Value → Bool
  | .null => false
  | .str s => !s.isEmpty
  | .int n => n != 0
  | .bool b => b
  | .vlist xs => !xs.isEmpty

/-- `d.get(k)` on a Python dict: the value stored at `k`, if any. -/
def dictGet (d : Dict) (k : String) : Option Value :=
  (d.find? (fun kv => kv.1 = k)).map (fun kv => kv.2)

/-- Truthiness of `d.get(k)` (missing key is `None`, hence falsy). -/
def getTruthy (d : Dict) (k : String) : Bool :=
  match dictGet d k with
  | none => false
  | some v => v.truthy

/-- `fastapi.HTTPException`: a status code and a detail message. -/
structure HTTPError where
  status : Nat
  detail : String
deriving DecidableEq, Repr

/-- What a remote call (identity service or data store) does when issued:
either it returns a value or it raises an exception with a message. -/
inductive Outcome (α : Type) where
  | ok (a : α)
  | raises (msg : String)
deriving DecidableEq, Repr

/-- A call issued to the data store (`supabase.table("user_profiles")...`). -/
inductive StoreCall where
  | selectById (user_id : String)
  | insert (row : Dict)
  | update (user_id : String) (data : Dict)
deriving DecidableEq, Repr

/-- A call issued to the identity service (`supabase.auth....`). -/
inductive AuthCall where
  | signOut
deriving DecidableEq, Repr

/-- A verified user identity (the relevant part of `response.user`). -/
structure Identity where
  id : String
  email : String
deriving DecidableEq, Repr

/-! ## `auth.py`: profile store adapter -/

/-- `get_user_profile` (auth.py lines 78-87): select the profile row by id;
`result.data[0] if result.data else None`; the `except` clause swallows any
store error and returns `None`. -/
def get_user_profile (user_id : String) (store : Outcome (List Dict)) :
    Except HTTPError (Option Dict) :=
  match user_id, store with
  | _, .ok rows => .ok rows.head?
  | _, .raises _ => .ok none

/-- Python `display_name or email.split("@")[0]` (auth.py line 106):
the optional string when it is truthy (non-empty), else the fallback. -/
def pyOrStr (a : Option String) (b : String) : String :=
  match a with
  | none => b
  | some s => if s.isEmpty then b else s

/-- An optional string stored into a dict: Python `None` becomes null. -/
def optValue : Option String → Value
  | none => .null
  | some s => .str s

/-- The `profile_data` dict built by `create_user_profile`
(auth.py lines 103-109). -/
def new_profile_data (user_id email : String)
    (display_name avatar_url : Option String) : Dict :=
  [("id", .str user_id),
   ("email", .str email),
   ("display_name", .str (pyOrStr display_name ((email.splitOn "@").headD email))),
   ("avatar_url", optValue avatar_url),
   ("sass_level", .int 3)]

/-- The body of `create_user_profile` after the existence check came back
empty (auth.py lines 102-112): build `profile_data`, insert it, return
`result.data[0]`; exceptions (store error, index error on an empty
result) reach the `except` clause and become an HTTP 500. -/
def create_insert_branch (user_id email : String)
    (display_name avatar_url : Option String)
    (insertStore : Outcome (List Dict)) :
    List StoreCall × Except HTTPError Dict :=
  let profile_data := new_profile_data user_id email display_name avatar_url
  let calls := [StoreCall.selectById user_id, StoreCall.insert profile_data]
  match insertStore with
  | .raises msg =>
      (calls, .error ⟨500, "Failed to create user profile: " ++ msg⟩)
  | .ok rows =>
    match rows.head? with
    | some r => (calls, .ok r)
    | none =>
        (calls,
         .error ⟨500, "Failed to create user profile: list index out of range"⟩)

/-- `create_user_profile` (auth.py lines 90-116): return the existing
profile if one exists (Python `if existing:` — a non-empty dict), else
insert `profile_data` and return `result.data[0]`; any exception becomes
an HTTP 500.  `getStore`/`insertStore` describe what the store does for
the select and for the insert; the issued calls are returned too. -/
def create_user_profile (user_id email : String)
    (display_name avatar_url : Option String)
    (getStore : Outcome (List Dict)) (insertStore : Outcome (List Dict)) :
    List StoreCall × Except HTTPError Dict :=
  match get_user_profile user_id getStore with
  | .error e =>
      ([StoreCall.selectById user_id],
       .error ⟨500, "Failed to create user profile: " ++ e.detail⟩)
  | .ok existing =>
    match existing with
    | some d =>
      if d.isEmpty then
        create_insert_branch user_id email display_name avatar_url insertStore
      else
        ([StoreCall.selectById user_id], .ok d)
    | none =>
        create_insert_branch user_id email display_name avatar_url insertStore

/-- The write allowlist of `update_user_profile` (auth.py lines 124-129). -/
def allowed_fields : List String :=
  ["display_name", "avatar_url", "body_type", "height_cm", "weight_kg",
   "gender_style", "notes", "typical_schedule", "default_occasions",
   "works_from_home", "has_dress_code", "dress_code_notes",
   "sass_level", "location", "body_reference_photos"]

/-- `update_user_profile` (auth.py lines 119-141): keep only allowlisted
keys; if nothing is left raise HTTP 400 before any store call; otherwise
issue the update and return `result.data[0] if result.data else None`;
a store exception becomes an HTTP 500. -/
def update_user_profile (user_id : String) (updates : Dict)
    (store : Outcome (List Dict)) :
    List StoreCall × Except HTTPError (Option Dict) :=
  let update_data := updates.filter (fun kv => allowed_fields.contains kv.1)
  if update_data.isEmpty then
    ([], .error ⟨400, "No valid fields to update"⟩)
  else
    match store with
    | .raises msg =>
        ([StoreCall.update user_id update_data],
         .error ⟨500, "Failed to update profile: " ++ msg⟩)
    | .ok rows =>
        ([StoreCall.update user_id update_data], .ok rows.head?)

/-! ## `auth.py`: credential verifier -/

/-- `get_current_user_optional` (auth.py lines 55-75): `None` when no
credentials were presented; otherwise ask the identity service to resolve
the token — no user or any exception yields `None`. -/
def get_current_user_optional (credentials : Option String)
    (service : Outcome (Option Identity)) :
    Except HTTPError (Option Identity) :=
  match credentials with
  | none => .ok none
  | some _token =>
    match service with
    | .raises _ => .ok none
    | .ok ouser =>
      match ouser with
      | none => .ok none
      | some u => .ok (some u)

/-! ## `categories.py`: taxonomy registry -/

/-- The `CATEGORIES` mapping (categories.py lines 9-72), in declaration
order. -/
def CATEGORIES : List (String × List String) :=
  [("top", ["t-shirt", "shirt", "blouse", "sweater", "hoodie", "tank-top",
            "polo", "cardigan"]),
   ("bottom", ["jeans", "pants", "shorts", "skirt", "leggings", "joggers",
               "dress-pants"]),
   ("outerwear", ["jacket", "coat", "blazer", "vest", "parka", "windbreaker",
                  "trench-coat"]),
   ("footwear", ["sneakers", "boots", "sandals", "heels", "flats", "loafers",
                 "dress-shoes"]),
   ("fullbody", ["dress", "jumpsuit", "romper", "overalls", "coveralls",
                 "suit"]),
   ("accessory", ["hat", "scarf", "belt", "bag", "sunglasses", "jewelry",
                  "watch", "tie"]),
   ("misc", ["underwear", "socks", "swimwear", "sleepwear", "other"])]

/-- `get_all_categories` (categories.py lines 194-196). -/
def get_all_categories : List String :=
  CATEGORIES.map (fun e => e.1)

/-- `get_subcategories` (categories.py lines 199-201):
`CATEGORIES.get(category, [])`. -/
def get_subcategories (category : String) : List String :=
  match CATEGORIES.find? (fun e => e.1 = category) with
  | some e => e.2
  | none => []

/-- `is_valid_category` (categories.py lines 204-210).  Note the Python
guard `if subcategory and subcategory not in CATEGORIES[category]`: a
falsy (empty or `None`) subcategory skips the membership check. -/
def is_valid_category (category : String)
    (subcategory : Option String := none) : Bool :=
  match CATEGORIES.find? (fun e => e.1 = category) with
  | none => false
  | some e =>
    match subcategory with
    | none => true
    | some s => if !s.isEmpty && !(e.2.contains s) then false else true

/-! ## `routes/auth.py`: route handlers -/

/-- The `/login` request body. -/
structure LoginRequest where
  email : String
  password : String
deriving DecidableEq, Repr

/-- A session as returned by the identity service. -/
structure Session where
  access_token : String
deriving DecidableEq, Repr

/-- The identity-service response to `sign_in_with_password`. -/
structure AuthResponse where
  user : Option Identity
  session : Option Session
deriving DecidableEq, Repr

/-- The success body of `/login`. -/
structure LoginSuccess where
  user : Identity
  session : Option Session
  profile : Option Dict
  message : String
deriving DecidableEq, Repr

/-- `login_with_email` (routes/auth.py lines 92-122): sign in with the
identity service; no user in a non-raising response is a 401 `"Invalid
credentials"` (re-raised unchanged by the `except HTTPException` clause);
any other exception is normalized to a 401 `"Invalid email or password"`;
on success the profile is fetched (never raising) and the response built. -/
def login_with_email (request : LoginRequest) (signin : Outcome AuthResponse)
    (profileStore : Outcome (List Dict)) : Except HTTPError LoginSuccess :=
  match request, signin with
  | _, .raises _msg => .error ⟨401, "Invalid email or password"⟩
  | _, .ok auth_response =>
    match auth_response.user with
    | none => .error ⟨401, "Invalid credentials"⟩
    | some u =>
      match get_user_profile u.id profileStore with
      | .error e => .error e
      | .ok profile =>
          .ok ⟨u, auth_response.session, profile, "Logged in successfully"⟩

/-- `logout` (routes/auth.py lines 125-136): calls `supabase.auth.sign_out()`
on the shared client — the call takes no arguments, in particular not the
authenticated user or their token; a service error becomes an HTTP 400
with the error text. -/
def logout (current_user : Identity) (signout : Outcome Unit) :
    List AuthCall × Except HTTPError String :=
  match current_user, signout with
  | _, .ok _ => ([AuthCall.signOut], .ok "Successfully logged out")
  | _, .raises msg => ([AuthCall.signOut], .error ⟨400, msg⟩)

/-- The `steps` object of the onboarding-status response. -/
structure OnboardingSteps where
  display_name : Bool
  body_photos : Bool
  preferences : Bool
deriving DecidableEq, Repr

/-- The onboarding-status response body. -/
structure OnboardingStatus where
  completed : Bool
  steps : OnboardingSteps
  profile : Option Dict
deriving DecidableEq, Repr

/-- `check_onboarding_status` (routes/auth.py lines 246-285): fetch the
profile; if absent return all-false; otherwise derive the three step
booleans by Python truthiness of the fields, with `completed` equal to
`has_display_name` alone. -/
def check_onboarding_status (current_user : Identity)
    (store : Outcome (List Dict)) : Except HTTPError OnboardingStatus :=
  match get_user_profile current_user.id store with
  | .error e => .error ⟨400, e.detail⟩
  | .ok none => .ok ⟨false, ⟨false, false, false⟩, none⟩
  | .ok (some profile) =>
    let has_display_name := getTruthy profile "display_name"
    let has_body_photos := getTruthy profile "body_reference_photos"
    let has_preferences :=
      getTruthy profile "gender_style" || getTruthy profile "location"
    .ok ⟨has_display_name,
         ⟨has_display_name, has_body_photos, has_preferences⟩,
         some profile⟩

/-! ## Shared helper lemmas -/

/-- A non-empty string has `isEmpty = false`. -/
theorem isEmpty_eq_false_of_ne (s : String) (h : s ≠ "") : s.isEmpty = false := by
  cases hh : s.isEmpty
  · rfl
  · exact absurd ((String.isEmpty_iff s).mp hh) h

/-! ## Claims -/

/-- C9: the profile fetch operation never raises: for every userId, any
store error during the read is swallowed and reported as the absent
result, indistinguishable from a not-yet-created profile, and fetch never
surfaces an error. -/
theorem get_user_profile_never_raises (user_id msg : String)
    (store : Outcome (List Dict)) :
    (∃ r, get_user_profile user_id store = .ok r) ∧
    get_user_profile user_id (.raises msg) = .ok none ∧
    get_user_profile user_id (.ok []) = .ok none := by
  refine ⟨?_, rfl, rfl⟩
  cases store <;> exact ⟨_, rfl⟩

/-- C6: optionalUser never fails: absent credentials, a token the service
cannot resolve, and a service exception of any kind all yield a
non-raising result, absent in each failure case. -/
theorem optional_user_never_fails (credentials : Option String)
    (service : Outcome (Option Identity)) (token msg : String) :
    (∃ r, get_current_user_optional credentials service = .ok r) ∧
    get_current_user_optional none service = .ok none ∧
    get_current_user_optional (some token) (.raises msg) = .ok none ∧
    get_current_user_optional (some token) (.ok none) = .ok none := by
  refine ⟨?_, ?_, rfl, rfl⟩
  · cases credentials with
    | none => exact ⟨none, rfl⟩
    | some t =>
      cases service with
      | raises m => exact ⟨none, rfl⟩
      | ok ou => cases ou <;> exact ⟨_, rfl⟩
  · rfl

/-- C10: the logout operation's external effect does not depend on which
authenticated user invokes it: any two users produce the identical
sign-out call on the shared client, and that call carries no token. -/
theorem logout_effect_user_independent (u1 u2 : Identity)
    (signout : Outcome Unit) :
    logout u1 signout = logout u2 signout ∧
    (logout u1 signout).1 = [AuthCall.signOut] := by
  cases signout <;> exact ⟨rfl, rfl⟩

/-- C2: every store write issued by the update operation carries exactly
the keys of the request that lie in the fifteen-field allowlist; when no
request key is allowlisted the operation fails with the 400
"No valid fields to update" and issues no store call. -/
theorem update_writes_exactly_allowlisted (user_id : String) (updates : Dict)
    (store : Outcome (List Dict)) :
    ((∀ kv ∈ updates, kv.1 ∉ allowed_fields) →
      (update_user_profile user_id updates store).1 = [] ∧
      (update_user_profile user_id updates store).2 =
        .error ⟨400, "No valid fields to update"⟩) ∧
    (∀ call ∈ (update_user_profile user_id updates store).1, ∃ data,
      call = StoreCall.update user_id data ∧
      ∀ k, k ∈ data.map Prod.fst ↔
        (k ∈ updates.map Prod.fst ∧ k ∈ allowed_fields)) := by
  constructor
  · intro hall
    have hfil :
        (updates.filter (fun kv => allowed_fields.contains kv.1)).isEmpty = true := by
      have h0 : updates.filter (fun kv => allowed_fields.contains kv.1) = [] := by
        refine List.filter_eq_nil_iff.mpr (fun kv hkv => ?_)
        simpa [List.elem_iff] using hall kv hkv
      rw [h0]
      rfl
    simp only [update_user_profile, hfil]
    exact ⟨rfl, rfl⟩
  · intro call hcall
    by_cases hfil :
        (updates.filter (fun kv => allowed_fields.contains kv.1)).isEmpty = true
    · simp only [update_user_profile, hfil] at hcall
      simp at hcall
    · rw [Bool.not_eq_true] at hfil
      refine ⟨updates.filter (fun kv => allowed_fields.contains kv.1), ?_, ?_⟩
      · simp only [update_user_profile, hfil] at hcall
        cases store <;> simpa using hcall
      · intro k
        constructor
        · intro hk
          rcases List.mem_map.mp hk with ⟨kv, hkv, hfst⟩
          rcases List.mem_filter.mp hkv with ⟨hmem, hp⟩
          subst hfst
          exact ⟨List.mem_map.mpr ⟨kv, hmem, rfl⟩, List.elem_iff.mp hp⟩
        · rintro ⟨hk, hka⟩
          rcases List.mem_map.mp hk with ⟨kv, hkv, hfst⟩
          subst hfst
          exact List.mem_map.mpr
            ⟨kv, List.mem_filter.mpr ⟨hkv, List.elem_iff.mpr hka⟩, rfl⟩

/-- C2 witness: an update whose only key is the disallowed `id` fails with
the 400 and issues no store call. -/
theorem update_writes_exactly_allowlisted_witness :
    (update_user_profile "u1" [("id", Value.str "x")] (.ok [])).1 = [] ∧
    (update_user_profile "u1" [("id", Value.str "x")] (.ok [])).2 =
      .error ⟨400, "No valid fields to update"⟩ :=
  (update_writes_exactly_allowlisted "u1" [("id", Value.str "x")] (.ok [])).1
    (by decide)

/-- C1 counterexample: with the allowlisted key `display_name` in the
request and a store that matches no row (empty update result, no
exception), the update operation returns the absent result `none` instead
of failing with a PersistenceError. -/
theorem update_no_match_returns_none :
    update_user_profile "u1" [("display_name", Value.str "Sam")] (.ok []) =
      ([StoreCall.update "u1" [("display_name", Value.str "Sam")]], .ok none) ∧
    "display_name" ∈ allowed_fields := by
  exact ⟨rfl, by decide⟩

/-- C1 amended: when some requested key is allowlisted, the update
operation returns the first row the store reports (absent when no row
matched, with no PersistenceError in that case) and fails with the 500
PersistenceError exactly when the store operation raises. -/
theorem update_result_classification (user_id : String) (updates : Dict)
    (rows : List Dict) (msg : String)
    (h : ∃ kv ∈ updates, kv.1 ∈ allowed_fields) :
    (update_user_profile user_id updates (.ok rows)).2 = .ok rows.head? ∧
    (update_user_profile user_id updates (.raises msg)).2 =
      .error ⟨500, "Failed to update profile: " ++ msg⟩ := by
  rcases h with ⟨kv, hmem, hka⟩
  have hfil :
      (updates.filter (fun kv => allowed_fields.contains kv.1)).isEmpty = false := by
    have : kv ∈ updates.filter (fun kv => allowed_fields.contains kv.1) :=
      List.mem_filter.mpr ⟨hmem, List.elem_iff.mpr hka⟩
    simpa [List.isEmpty_iff] using List.ne_nil_of_mem this
  constructor <;> simp only [update_user_profile, hfil] <;> rfl

/-- C1 amended witness: updating `display_name` against a store holding a
matching row returns that row. -/
theorem update_result_classification_witness :
    (update_user_profile "u1" [("display_name", Value.str "Sam")]
      (.ok [[("id", Value.str "u1"), ("display_name", Value.str "Sam")]])).2 =
      .ok (some [("id", Value.str "u1"), ("display_name", Value.str "Sam")]) :=
  (update_result_classification "u1" [("display_name", Value.str "Sam")]
    [[("id", Value.str "u1"), ("display_name", Value.str "Sam")]] "m"
    ⟨("display_name", Value.str "Sam"), by decide, by decide⟩).1

/-- C3: createIfAbsent is idempotent: when a (non-empty) profile row
already exists for the userId, the operation returns it unchanged, issues
only the select (no insert), and its result does not depend on what the
store would do for an insert — so a second call returns the same profile
and at most one record is ever created. -/
theorem create_if_absent_idempotent (user_id email : String)
    (display_name avatar_url : Option String) (p : Dict) (rows : List Dict)
    (insertStore ins2 : Outcome (List Dict))
    (h1 : rows.head? = some p) (h2 : p ≠ []) :
    create_user_profile user_id email display_name avatar_url
        (.ok rows) insertStore =
      ([StoreCall.selectById user_id], .ok p) ∧
    (∀ row, StoreCall.insert row ∉
      (create_user_profile user_id email display_name avatar_url
        (.ok rows) insertStore).1) ∧
    create_user_profile user_id email display_name avatar_url
        (.ok rows) insertStore =
      create_user_profile user_id email display_name avatar_url
        (.ok rows) ins2 := by
  have hp : p.isEmpty = false := by
    simpa [List.isEmpty_iff] using h2
  have hmain : create_user_profile user_id email display_name avatar_url
      (.ok rows) insertStore = ([StoreCall.selectById user_id], .ok p) := by
    simp only [create_user_profile, get_user_profile, h1, hp]
    rfl
  have hmain2 : create_user_profile user_id email display_name avatar_url
      (.ok rows) ins2 = ([StoreCall.selectById user_id], .ok p) := by
    simp only [create_user_profile, get_user_profile, h1, hp]
    rfl
  refine ⟨hmain, ?_, hmain.trans hmain2.symm⟩
  intro row hrow
  rw [hmain] at hrow
  simp at hrow

/-- C3 witness: with an existing profile row in the store, createIfAbsent
returns it and issues only the select. -/
theorem create_if_absent_idempotent_witness :
    create_user_profile "u1" "a@b.c" none none
        (.ok [[("id", Value.str "u1")]]) (.ok []) =
      ([StoreCall.selectById "u1"], .ok [("id", Value.str "u1")]) :=
  (create_if_absent_idempotent "u1" "a@b.c" none none
    [("id", Value.str "u1")] [[("id", Value.str "u1")]] (.ok []) (.ok [])
    rfl (by decide)).1

/-- C7 counterexample: creating a profile for a fresh userId with a given
avatar URL inserts a record whose `avatar_url` field is that URL, not
empty/absent — refuting "other optional fields are empty/absent". -/
theorem create_inserts_given_avatar :
    dictGet (new_profile_data "u1" "a@b.c" none (some "http://pic"))
        "avatar_url" = some (Value.str "http://pic") ∧
    (create_user_profile "u1" "a@b.c" none (some "http://pic")
        (.ok []) (.ok [])).1 =
      [StoreCall.selectById "u1",
       StoreCall.insert (new_profile_data "u1" "a@b.c" none (some "http://pic"))] := by
  exact ⟨rfl, rfl⟩

/-- C7 amended: for a userId with no existing profile, the inserted
record has exactly the keys id, email, display_name, avatar_url,
sass_level; display_name equals the given value, or the local-part of the
email before the `@` when the given value is empty or absent; sass_level
equals 3; avatar_url equals the given value (null when absent); all
remaining optional fields are absent from the record. -/
theorem create_new_profile_fields (user_id email : String)
    (display_name avatar_url : Option String)
    (getStore insertStore : Outcome (List Dict))
    (h : get_user_profile user_id getStore = .ok none) :
    (create_user_profile user_id email display_name avatar_url
        getStore insertStore).1 =
      [StoreCall.selectById user_id,
       StoreCall.insert (new_profile_data user_id email display_name avatar_url)] ∧
    (display_name = none ∨ display_name = some "" →
      dictGet (new_profile_data user_id email display_name avatar_url)
          "display_name" =
        some (Value.str ((email.splitOn "@").headD email))) ∧
    (∀ s, display_name = some s → s ≠ "" →
      dictGet (new_profile_data user_id email display_name avatar_url)
          "display_name" = some (Value.str s)) ∧
    dictGet (new_profile_data user_id email display_name avatar_url)
        "sass_level" = some (Value.int 3) ∧
    dictGet (new_profile_data user_id email display_name avatar_url)
        "avatar_url" = some (optValue avatar_url) ∧
    (new_profile_data user_id email display_name avatar_url).map Prod.fst =
      ["id", "email", "display_name", "avatar_url", "sass_level"] := by
  refine ⟨?_, ?_, ?_, ?_, ?_, ?_⟩
  · simp only [create_user_profile, h]
    cases insertStore with
    | raises m => rfl
    | ok rows =>
      simp only [create_insert_branch]
      cases rows.head? <;> rfl
  · rintro (hd | hd) <;> subst hd <;>
      simp [new_profile_data, dictGet, pyOrStr]
    intro hfalse
    exact absurd hfalse (by decide)
  · intro s hs hne
    subst hs
    simp [new_profile_data, dictGet, pyOrStr, isEmpty_eq_false_of_ne s hne]
  · simp [new_profile_data, dictGet]
  · simp [new_profile_data, dictGet]
  · rfl

/-- C7 amended witness: a fresh profile created with display name "Sam"
issues the select then the insert of the record, and that record's
display_name is "Sam". -/
theorem create_new_profile_fields_witness :
    (create_user_profile "u1" "a@b.c" (some "Sam") none (.ok []) (.ok [])).1 =
      [StoreCall.selectById "u1",
       StoreCall.insert (new_profile_data "u1" "a@b.c" (some "Sam") none)] ∧
    dictGet (new_profile_data "u1" "a@b.c" (some "Sam") none) "display_name" =
      some (Value.str "Sam") := by
  have h := create_new_profile_fields "u1" "a@b.c" (some "Sam") none
    (.ok []) (.ok []) rfl
  exact ⟨h.1, h.2.2.1 "Sam" rfl (by decide)⟩

/-- C8: the onboarding status derives its three steps from truthiness of
display_name, body_reference_photos, and (gender_style or location), with
overall completed equal to the display_name step alone; when the profile
is absent everything is false. -/
theorem onboarding_status_derivation (u : Identity)
    (store : Outcome (List Dict)) (st : OnboardingStatus)
    (h : check_onboarding_status u store = .ok st) :
    st.completed = st.steps.display_name ∧
    (st.profile = none → st = ⟨false, ⟨false, false, false⟩, none⟩) ∧
    (∀ p, st.profile = some p →
      st.steps.display_name = getTruthy p "display_name" ∧
      st.steps.body_photos = getTruthy p "body_reference_photos" ∧
      st.steps.preferences =
        (getTruthy p "gender_style" || getTruthy p "location")) := by
  cases store with
  | raises m =>
    simp only [check_onboarding_status, get_user_profile] at h
    rw [Except.ok.injEq] at h
    subst h
    exact ⟨rfl, fun _ => rfl, fun p hp => by simp at hp⟩
  | ok rows =>
    simp only [check_onboarding_status, get_user_profile] at h
    cases hr : rows.head? with
    | none =>
      rw [hr] at h
      rw [Except.ok.injEq] at h
      subst h
      exact ⟨rfl, fun _ => rfl, fun p hp => by simp at hp⟩
    | some p =>
      rw [hr] at h
      rw [Except.ok.injEq] at h
      subst h
      refine ⟨rfl, fun hnone => by simp at hnone, fun q hq => ?_⟩
      rw [Option.some.injEq] at hq
      subst hq
      exact ⟨rfl, rfl, rfl⟩

/-- C8 witness: a profile with only display_name set yields completed with
the display_name step true and the other steps false. -/
theorem onboarding_status_derivation_witness :
    (OnboardingStatus.mk true ⟨true, false, false⟩
        (some [("display_name", Value.str "Sam")])).completed =
      (OnboardingStatus.mk true ⟨true, false, false⟩
        (some [("display_name", Value.str "Sam")])).steps.display_name :=
  (onboarding_status_derivation ⟨"u1", "a@b.c"⟩
    (.ok [[("display_name", Value.str "Sam")]])
    ⟨true, ⟨true, false, false⟩, some [("display_name", Value.str "Sam")]⟩
    (by rfl)).1

/-- C4 counterexample: "top" is a known category and the empty string is
not among its subcategories, yet isValidCategory("top", "") returns true —
a falsy given subcategory skips the membership check. -/
theorem empty_subcategory_accepted :
    is_valid_category "top" (some "") = true ∧
    "top" ∈ get_all_categories ∧
    "" ∉ get_subcategories "top" := by
  refine ⟨rfl, by decide, by decide⟩

/-- C4 amended: isValidCategory is true iff the category is a key of the
taxonomy and, when a subcategory is given, that subcategory is either
empty (a falsy value, treated as not given) or a member of the category's
subcategory sequence; with no subcategory it is true iff the category is
a key. -/
theorem is_valid_category_characterization (category : String)
    (subcategory : Option String) :
    is_valid_category category subcategory =
      (get_all_categories.contains category &&
        match subcategory with
        | none => true
        | some s => s.isEmpty || (get_subcategories category).contains s) := by
  cases hf : CATEGORIES.find? (fun e => e.1 = category) with
  | none =>
    have hc : get_all_categories.contains category = false := by
      by_contra hcc
      rw [Bool.not_eq_false] at hcc
      rcases List.mem_map.mp (List.elem_iff.mp hcc) with ⟨e, he, hfst⟩
      have hne := List.find?_eq_none.mp hf e he
      simp [hfst] at hne
    simp only [is_valid_category, hf, hc, Bool.false_and]
  | some e =>
    have he1 : e.1 = category := by
      simpa using List.find?_some hf
    have hc : get_all_categories.contains category = true :=
      List.elem_iff.mpr
        (List.mem_map.mpr ⟨e, List.mem_of_find?_eq_some hf, he1⟩)
    have hsub : get_subcategories category = e.2 := by
      simp [get_subcategories, hf]
    cases subcategory with
    | none => simp only [is_valid_category, hf, hc, Bool.true_and]
    | some s =>
      simp only [is_valid_category, hf, hc, hsub, Bool.true_and]
      cases hse : s.isEmpty <;> cases hcs : e.2.contains s <;> decide

/-- C5 counterexample: two failing login attempts — one where the
identity service raises and one where it returns no user without
raising — both fail, but with observably different responses, so the
responses are not all "the same generic result". -/
theorem login_failure_responses_differ :
    login_with_email ⟨"a@b.c", "pw"⟩ (.raises "x") (.ok []) =
      .error ⟨401, "Invalid email or password"⟩ ∧
    login_with_email ⟨"a@b.c", "pw"⟩ (.ok ⟨none, none⟩) (.ok []) =
      .error ⟨401, "Invalid credentials"⟩ ∧
    (⟨401, "Invalid email or password"⟩ : HTTPError) ≠
      ⟨401, "Invalid credentials"⟩ := by
  refine ⟨rfl, rfl, by decide⟩

/-- C5 amended: every service-raised login failure is normalized to the
constant 401 "Invalid email or password" — independent of the error's
message, so no cause detail and nothing distinguishing unknown email from
wrong password leaks; a non-raising response with no user yields the
constant 401 "Invalid credentials", likewise identical across attempts. -/
theorem login_failure_normalized (r1 r2 : LoginRequest) (m1 m2 : String)
    (p1 p2 : Outcome (List Dict)) (a1 a2 : AuthResponse)
    (h1 : a1.user = none) (h2 : a2.user = none) :
    login_with_email r1 (.raises m1) p1 =
      .error ⟨401, "Invalid email or password"⟩ ∧
    login_with_email r2 (.raises m2) p2 =
      .error ⟨401, "Invalid email or password"⟩ ∧
    login_with_email r1 (.ok a1) p1 = .error ⟨401, "Invalid credentials"⟩ ∧
    login_with_email r1 (.ok a1) p1 = login_with_email r2 (.ok a2) p2 := by
  refine ⟨rfl, rfl, ?_, ?_⟩ <;> simp [login_with_email, h1, h2]

/-- C5 amended witness: concrete failing attempts with different service
error messages produce the identical normalized response. -/
theorem login_failure_normalized_witness :
    login_with_email ⟨"a@b.c", "pw"⟩ (.raises "user not found") (.ok []) =
      .error ⟨401, "Invalid email or password"⟩ ∧
    login_with_email ⟨"d@e.f", "pw2"⟩ (.raises "bad password") (.ok []) =
      .error ⟨401, "Invalid email or password"⟩ :=
  ⟨(login_failure_normalized ⟨"a@b.c", "pw"⟩ ⟨"d@e.f", "pw2"⟩
      "user not found" "bad password" (.ok []) (.ok [])
      ⟨none, none⟩ ⟨none, none⟩ rfl rfl).1,
   (login_failure_normalized ⟨"a@b.c", "pw"⟩ ⟨"d@e.f", "pw2"⟩
      "user not found" "bad password" (.ok []) (.ok [])
      ⟨none, none⟩ ⟨none, none⟩ rfl rfl).2.1⟩

end FashionApp
